import Mathlib

/- Verification development for the cutesom-illustration-server repository.

   Shallow embedding of the orchestration core of `src/main.py` together with
   the persistence operations of `src/services/firebase_service.py` that the
   orchestrator calls.  Python strings are Lean `String`s; Python truthiness of
   a string is the test `s ≠ ""`; a Python `set` of strings is represented by a
   duplicate-free list (`List.dedup` of the matched names), and where the code
   iterates such a set (whose iteration order CPython leaves unspecified) the
   model quantifies over an arbitrary enumeration, i.e. a permutation of that
   duplicate-free list.  Raised exceptions are modelled with `Except`/`Option`
   outcomes supplied by an environment record, and persistence side effects are
   recorded in an explicit event trace. -/

deriving instance DecidableEq for Except

namespace Cutesom

/-- Embedding of Python's substring test `needle in hay` (`str.__contains__`),
on the underlying character lists. -/
def py_substr (needle : List Char) : List Char → Bool
  | [] => needle.isPrefixOf []
  | c :: t => needle.isPrefixOf (c :: t) || py_substr needle t

/-- The ASCII whitespace characters stripped by Python `str.strip()` (the
poems and names of this development are ASCII). -/
def py_space (c : Char) : Bool :=
  c = ' ' || c = '\t' || c = '\n' || c = '\r' || c = '\x0b' || c = '\x0c'

/-- Embedding of Python `str.strip()`: drop leading and trailing whitespace. -/
def py_strip (s : List Char) : List Char :=
  ((s.dropWhile py_space).reverse.dropWhile py_space).reverse

/-- Embedding of Python `str.split('\n\n')`: cut at each non-overlapping
occurrence of two consecutive newline characters, scanning left to right;
`acc` holds the (reversed) characters of the fragment being built. -/
def split_nn_go (acc : List Char) : List Char → List (List Char)
  | '\n' :: '\n' :: rest => acc.reverse :: split_nn_go [] rest
  | c :: rest => split_nn_go (c :: acc) rest
  | [] => [acc.reverse]

/-- Embedding of Python `str.lower()` (ASCII case folding). -/
def py_lower (s : List Char) : List Char :=
  s.map Char.toLower

/-- Embedding of `main.split_poem_into_stanzas` (src/main.py:133-144):
`[stanza.strip() for stanza in poem_text.split('\n\n') if stanza.strip()]`. -/
def split_poem_into_stanzas (poem_text : String) : List String :=
  ((((split_nn_go [] poem_text.data).map py_strip).filter
    (fun s => decide (s ≠ []))).map String.mk)

/-- Embedding of `main.get_names_in_stanza` (src/main.py:146-157):
`{name for name in names if name.lower() in stanza_lower}` with
`stanza_lower = stanza.lower()`.  The Python set is represented by the
duplicate-free list of matched names. -/
def get_names_in_stanza (stanza : String) (names : List String) : List String :=
  (names.filter (fun name => py_substr (py_lower name.data) (py_lower stanza.data))).dedup

/-- Embedding of the requirement-text construction of
`main.generate_illustration_for_stanza` (src/main.py:224-237): given the
list obtained from `list(stanza_parent_names)` (resp. family names), either the
default text (empty presence set), the one-name sentence, or
`"Include " + ", ".join(lst[:-1]) + " and " + lst[-1] + ", using their photos as
reference for accurate appearance."`. -/
def requirement_text (default_text : String) (names_list : List String) : String :=
  match names_list with
  | [] => default_text
  | [x] => "Include " ++ x ++ " and use their photo as reference for accurate appearance."
  | xs => "Include " ++ String.intercalate ", " xs.dropLast ++ " and " ++ xs.getLastD ""
      ++ ", using their photos as reference for accurate appearance."

/-- Default parent requirement text (src/main.py:190). -/
def parent_default : String := "No parents included in the illustration."

/-- Default family-member requirement text (src/main.py:202). -/
def family_default : String := "No family members included in the illustration."

/-- A person of the request (schemas/models.py `Person`): a name and a photo
string; an absent photo is the empty (falsy) string. -/
structure PersonM where
  name : String
  photo : String
deriving DecidableEq, Repr

/-- Names collected by src/main.py:189-208: for each person, the name is
appended when it is truthy. -/
def collect_names (ps : List PersonM) : List String :=
  (ps.filter (fun p => decide (p.name ≠ ""))).map (fun p => p.name)

/-- Photos collected by src/main.py:189-208: a photo is appended only inside
the `if <person>.name:` block and only when the photo itself is truthy. -/
def collect_photos (ps : List PersonM) : List String :=
  ((ps.filter (fun p => decide (p.name ≠ ""))).filter (fun p => decide (p.photo ≠ ""))).map
    (fun p => p.photo)

/-- Embedding of src/main.py:215-222: `[photo for name, photo in
zip(names, photos) if name in stanza_names]` where `stanza_names =
get_names_in_stanza(stanza, names)`. -/
def relevant_photos (stanza : String) (names photos : List String) : List String :=
  ((names.zip photos).filter
    (fun np => (get_names_in_stanza stanza names).contains np.1)).map (fun np => np.2)

/-- Embedding of the reference-image list of src/main.py:239-244: baby photo
first when truthy, then the relevant parent photos, then the relevant
family-member photos. -/
def reference_images (baby_photo : String) (stanza : String)
    (parents family : List PersonM) : List String :=
  (if baby_photo ≠ "" then [baby_photo] else [])
    ++ relevant_photos stanza (collect_names parents) (collect_photos parents)
    ++ relevant_photos stanza (collect_names family) (collect_photos family)

/-- Outcome of awaiting one stanza task with `asyncio.wait_for(task, timeout=300)`
(src/main.py:398-421): the task returned an image string, the wait timed out
(`asyncio.TimeoutError`), or the task raised with the given message. -/
inductive TaskOutcome where
  | ok (img : String)
  | timeout
  | err (msg : String)
deriving DecidableEq, Repr

/-- Environment of one run of `main.generate_illustration`: the outcomes of the
external calls it performs, indexed where needed by stanza number.  `none`
means the call succeeded; `some msg` (resp. `Except.error msg`) means it raised
an exception with message `msg`. -/
structure Env where
  create : Except String String
  task : Nat → TaskOutcome
  add_illustration : Nat → Option String
  set_status : String → Option String
  cover_gen : Except String String
  upload_cover : Except String String
  attach_cover : Option String

/-- Persistence events, in the order the Recorder performs them. -/
inductive Ev where
  | createStorybook (sid : String)
  | addIllustration (stanza : Nat) (img : String)
  | setStatus (status : String) (error : Option String)
  | uploadCover (url : String)
  | attachCover (url : String)
deriving DecidableEq, Repr

/-- The `IllustrationResponse` of schemas/models.py, with the stanza-number
keys of the Python dict `image_data` kept as naturals. -/
structure Response where
  status : String
  message : String
  image_data : Option (List (Nat × String))
  cover_image : Option String
  error : Option String
deriving DecidableEq, Repr

/-- Embedding of the result-processing loop of src/main.py:394-421.  For each
`(stanza_num, task)` in order: a successful task with a truthy image is
persisted via `firebase_service.add_illustration` and put into `image_data`; a
falsy image, a timeout, a task exception, or an `add_illustration` exception
(all caught by the loop's `except` clauses) append the corresponding message to
`errors` and the loop continues.  Returns `(image_data, errors, events)`, each
in processing order. -/
def process_tasks (env : Env) : List (Nat × String) →
    List (Nat × String) × List String × List Ev
  | [] => ([], [], [])
  | (n, _stanza) :: rest =>
    let step : List (Nat × String) × List String × List Ev :=
      match env.task n with
      | .ok img =>
        if img ≠ "" then
          match env.add_illustration n with
          | none => ([(n, img)], [], [Ev.addIllustration n img])
          | some m =>
            ([], ["Error generating illustration for stanza " ++ toString n ++ ": " ++ m], [])
        else ([], ["Failed to generate illustration for stanza " ++ toString n], [])
      | .timeout => ([], ["Timeout generating illustration for stanza " ++ toString n], [])
      | .err m =>
        ([], ["Error generating illustration for stanza " ++ toString n ++ ": " ++ m], [])
    let r := process_tasks env rest
    (step.1 ++ r.1, step.2.1 ++ r.2.1, step.2.2 ++ r.2.2)

/-- Embedding of the cover stage of src/main.py:432-458.  The whole stage is
wrapped in `try/except`: any exception is logged and swallowed.  The variable
`cover_image` keeps the value assigned before the exception (None when
`generate_storybook_cover` itself raised).  Returns the final value of
`cover_image` and the persistence events of the stage. -/
def cover_stage (env : Env) : Option String × List Ev :=
  match env.cover_gen with
  | .error _ => (none, [])
  | .ok c =>
    if c ≠ "" then
      match env.upload_cover with
      | .error _ => (some c, [])
      | .ok url =>
        match env.attach_cover with
        | none => (some c, [Ev.uploadCover url, Ev.attachCover url])
        | some _ => (some c, [Ev.uploadCover url])
    else (some c, [])

/-- Python truthiness of the optional string variable `cover_image`. -/
def opt_truthy : Option String → Bool
  | none => false
  | some s => decide (s ≠ "")

/-- The response message built at src/main.py:467-474. -/
def final_message (imgs : List (Nat × String)) (errs : List String) (total : Nat)
    (cover : Option String) : String :=
  let base :=
    if errs.isEmpty then
      "Successfully generated all " ++ toString imgs.length ++ " illustrations"
    else
      "Generated " ++ toString imgs.length ++ " out of " ++ toString total
        ++ " illustrations. Errors: " ++ String.intercalate "; " errs
  if opt_truthy cover then base ++ " and storybook cover" else base

/-- The generic error response returned by the `except` handlers of
src/main.py:484-497. -/
def error_response (e : String) : Response :=
  { status := "error", message := "Failed to generate illustrations",
    image_data := none, cover_image := none, error := some e }

/-- The per-stanza tasks created at src/main.py:381-392: one task per stanza,
launched in stanza order (all before any is awaited), paired with its 1-based
stanza number. -/
def stanza_tasks (poem_text : String) : List (Nat × String) :=
  (((List.range (split_poem_into_stanzas poem_text).length).zip
    (split_poem_into_stanzas poem_text)).map (fun p => (p.1 + 1, p.2)))

/-- Embedding of the endpoint `main.generate_illustration`
(src/main.py:345-497): create the storybook, split the poem, launch one task
per stanza (all before any is awaited), process the tasks in stanza order, then
either mark the storybook failed and raise `ValueError` (zero successes) or run
the cover stage, mark it completed and build the success response.  Exceptions
of `create_storybook` and `update_storybook_status` propagate to the outer
`except` handlers, which return an error response.  Returns the response
together with the trace of persistence events. -/
def run_generate (env : Env) (poem_text : String) : Response × List Ev :=
  match env.create with
  | .error e => (error_response e, [])
  | .ok sid =>
    let total := (split_poem_into_stanzas poem_text).length
    let r := process_tasks env (stanza_tasks poem_text)
    if r.1.isEmpty then
      match env.set_status "failed" with
      | some m => (error_response m, Ev.createStorybook sid :: r.2.2)
      | none =>
        (error_response "Failed to generate any illustrations",
          Ev.createStorybook sid :: (r.2.2 ++ [Ev.setStatus "failed" none]))
    else
      let cov := cover_stage env
      match env.set_status "completed" with
      | some m => (error_response m, Ev.createStorybook sid :: (r.2.2 ++ cov.2))
      | none =>
        ({ status := "success",
           message := final_message r.1 r.2.1 total cov.1,
           image_data := some r.1,
           cover_image := cov.1,
           error := none },
         Ev.createStorybook sid :: (r.2.2 ++ cov.2 ++ [Ev.setStatus "completed" none]))

/-- Timed view of one awaited task of the loop (src/main.py:398-401):
`start` is the instant (seconds from run start, all tasks being launched at
instant 0 by src/main.py:381-392) at which the scheduler begins awaiting the
task, `timedOut` whether `asyncio.wait_for` raised, `finish` the instant the
scheduler moves on. -/
structure TimedResult where
  start : Nat
  timedOut : Bool
  finish : Nat
deriving DecidableEq, Repr

/-- Timed model of the await loop: given the absolute completion instants of
the concurrently running tasks (in stanza order), await each in stanza order;
`asyncio.wait_for(task, timeout=300)` returns the task's result if it
completes within 300 seconds of the moment the wait begins, and raises
`TimeoutError` 300 seconds after the wait begins otherwise. -/
def schedule_go (t : Nat) : List Nat → List TimedResult
  | [] => []
  | c :: rest =>
    if c ≤ t + 300 then
      { start := t, timedOut := false, finish := max t c } :: schedule_go (max t c) rest
    else
      { start := t, timedOut := true, finish := t + 300 } :: schedule_go (t + 300) rest

/-- The await loop starts processing at instant 0, right after launching all
tasks. -/
def schedule (completions : List Nat) : List TimedResult :=
  schedule_go 0 completions

/-- One primitive Firestore access of `FirebaseService.add_illustration`
(src/services/firebase_service.py:442-464): the operation is the two-step
sequence `read i` (`storybook_ref.get()`, taking a snapshot of the
`illustrations` array) followed by `write i` (`storybook_ref.update(...)`,
overwriting the array with the snapshot plus the new record) — two separate
non-transactional requests. -/
inductive RmwStep where
  | read (i : Nat)
  | write (i : Nat)
deriving DecidableEq, Repr

/-- Execute an interleaving of append operations.  `recs` gives operation `i`'s
record (a stanza number); the state is the stored `illustrations` array
together with each operation's snapshot (if it has read yet). -/
def run_rmw (recs : List Nat) : List RmwStep → List Nat × List (Option (List Nat)) →
    List Nat × List (Option (List Nat))
  | [], st => st
  | RmwStep.read i :: rest, (store, snaps) =>
    run_rmw recs rest (store, snaps.set i (some store))
  | RmwStep.write i :: rest, (store, snaps) =>
    match snaps.getD i none with
    | some snap => run_rmw recs rest (snap ++ [recs.getD i 0], snaps)
    | none => run_rmw recs rest (store, snaps)

/-- Final `illustrations` array after running the given interleaving of the
append operations from the given initial array. -/
def final_store (recs : List Nat) (sched : List RmwStep) (init : List Nat) : List Nat :=
  (run_rmw recs sched (init, recs.map (fun _ => none))).1

/-! Helper lemmas. -/

theorem isPrefixOf_iff_exists_append {α : Type} [BEq α] [LawfulBEq α] :
    ∀ (l₁ l₂ : List α), l₁.isPrefixOf l₂ = true ↔ ∃ t, l₂ = l₁ ++ t
  | [], l₂ => by simp [List.isPrefixOf]
  | a :: as, [] => by simp [List.isPrefixOf]
  | a :: as, b :: bs => by
    simp only [List.isPrefixOf, Bool.and_eq_true, beq_iff_eq,
      isPrefixOf_iff_exists_append as bs, List.cons_append, List.cons.injEq]
    constructor
    · rintro ⟨rfl, t, rfl⟩
      exact ⟨t, rfl, rfl⟩
    · rintro ⟨t, rfl, rfl⟩
      exact ⟨rfl, t, rfl⟩

theorem py_substr_iff (n : List Char) :
    ∀ h : List Char, py_substr n h = true ↔ ∃ pre suf, h = pre ++ n ++ suf
  | [] => by
    simp only [py_substr, isPrefixOf_iff_exists_append]
    constructor
    · rintro ⟨t, ht⟩
      exact ⟨[], t, ht⟩
    · rintro ⟨pre, suf, hps⟩
      rcases List.append_eq_nil.1 (List.append_eq_nil.1 hps.symm).1 with ⟨rfl, rfl⟩
      exact ⟨suf, hps⟩
  | c :: t => by
    simp only [py_substr, Bool.or_eq_true, isPrefixOf_iff_exists_append, py_substr_iff n t]
    constructor
    · rintro (⟨suf, hsuf⟩ | ⟨pre, suf, rfl⟩)
      · exact ⟨[], suf, hsuf⟩
      · exact ⟨c :: pre, suf, rfl⟩
    · rintro ⟨pre, suf, hps⟩
      match pre, hps with
      | [], hps => exact Or.inl ⟨suf, hps⟩
      | p :: pre, hps =>
        rcases List.cons.injEq .. ▸ hps with ⟨rfl, htl⟩
        exact Or.inr ⟨pre, suf, htl⟩

theorem perm_pair {α : Type} {a b : α} {l : List α} (h : l.Perm [a, b]) :
    l = [a, b] ∨ l = [b, a] := by
  have hlen := h.length_eq
  match l, hlen with
  | [x, y], _ =>
    have hx : x ∈ [a, b] := h.subset (by simp)
    rcases List.mem_pair.1 hx with rfl | rfl
    · have h2 : [y].Perm [b] := h.cons_inv
      have : y ∈ [b] := h2.subset (by simp)
      simp only [List.mem_singleton] at this
      exact Or.inl (by rw [this])
    · have h2 : [x, y].Perm [x, a] := h.trans (List.Perm.swap x a [])
      have h3 : [y].Perm [a] := h2.cons_inv
      have : y ∈ [a] := h3.subset (by simp)
      simp only [List.mem_singleton] at this
      exact Or.inr (by rw [this])

theorem perm_three {α : Type} {a b c : α} {l : List α} (h : l.Perm [a, b, c]) :
    l = [a, b, c] ∨ l = [a, c, b] ∨ l = [b, a, c] ∨ l = [b, c, a] ∨
      l = [c, a, b] ∨ l = [c, b, a] := by
  have hlen := h.length_eq
  match l, hlen with
  | [x, y, z], _ =>
    have hx : x ∈ [a, b, c] := h.subset (by simp)
    simp only [List.mem_cons, List.mem_singleton, List.not_mem_nil, or_false] at hx
    rcases hx with rfl | rfl | rfl
    · have h2 : [y, z].Perm [b, c] := h.cons_inv
      rcases perm_pair h2 with h3 | h3 <;> rw [h3] <;> simp
    · have h2 : ([x, y, z]).Perm (x :: [a, c]) := h.trans (List.Perm.swap x a [c])
      have h3 : [y, z].Perm [a, c] := h2.cons_inv
      rcases perm_pair h3 with h4 | h4 <;> rw [h4] <;> simp
    · have hswap : ([a, b, x]).Perm (x :: [a, b]) :=
        ((List.Perm.swap x b [] ).cons a).trans (List.Perm.swap x a [b])
      have h2 : ([x, y, z]).Perm (x :: [a, b]) := h.trans hswap
      have h3 : [y, z].Perm [a, b] := h2.cons_inv
      rcases perm_pair h3 with h4 | h4 <;> rw [h4] <;> simp

/-! Claim theorems: segmentation, presence, requirement text, references. -/

/-- C8: the Poem Segmenter splits on blank-line boundaries (occurrences of two
consecutive newlines, consecutive blank lines producing fragments that strip to
empty), strips each fragment, and keeps exactly the fragments that are
non-empty after stripping, in document order; `"A\n\nB\n\nC"` gives
`["A","B","C"]`, leading/trailing blank lines and runs of blank lines give the
same three stanzas, and an empty or all-blank poem gives `[]`. -/
theorem split_poem_into_stanzas_spec :
    split_poem_into_stanzas "A\n\nB\n\nC" = ["A", "B", "C"] ∧
    split_poem_into_stanzas "\n\n\nA\n\n\n\nB\n\nC\n\n" = ["A", "B", "C"] ∧
    split_poem_into_stanzas "" = [] ∧
    split_poem_into_stanzas "\n\n \n\n\n" = [] ∧
    (∀ (poem s : String), s ∈ split_poem_into_stanzas poem ↔
      s ≠ "" ∧ ∃ frag, frag ∈ split_nn_go [] poem.data ∧ s = String.mk (py_strip frag)) := by
  refine ⟨by decide, by decide, by decide, by decide, ?_⟩
  intro poem s
  simp only [split_poem_into_stanzas, List.mem_map, List.mem_filter,
    decide_eq_true_eq]
  constructor
  · rintro ⟨l, ⟨⟨frag, hfrag, rfl⟩, hne⟩, rfl⟩
    exact ⟨by simpa [String.ext_iff] using hne, frag, hfrag, rfl⟩
  · rintro ⟨hne, frag, hfrag, rfl⟩
    exact ⟨py_strip frag, ⟨⟨frag, hfrag, rfl⟩, by simpa [String.ext_iff] using hne⟩, rfl⟩

/-- C9: the Character Presence Resolver returns exactly the set of input names
whose lowercased form occurs as a substring of the lowercased stanza text
(duplicates collapsed, overlap not deduplicated by specificity); with names
`["Sarah","Sarah Jane"]` and stanza `"sarah jane smiled"` both names match. -/
theorem get_names_in_stanza_spec :
    (∀ (stanza : String) (names : List String) (n : String),
      n ∈ get_names_in_stanza stanza names ↔
        n ∈ names ∧ ∃ pre suf, py_lower stanza.data = pre ++ py_lower n.data ++ suf) ∧
    get_names_in_stanza "sarah jane smiled" ["Sarah", "Sarah Jane"]
      = ["Sarah", "Sarah Jane"] := by
  refine ⟨?_, by decide⟩
  intro stanza names n
  simp [get_names_in_stanza, List.mem_filter, py_substr_iff]

/-- C6 counterexample: the claim predicts the requirement string
`"Include Amy, Bo, and Cy, using their photos as reference for accurate
appearance."` for the three-name presence set, but the code joins the names
without a comma before the final `"and"`, and this holds in whichever order
the Python set enumerates the three names (all six orders shown). -/
theorem requirement_text_counterexample :
    requirement_text parent_default ["Amy", "Bo", "Cy"] =
      "Include Amy, Bo and Cy, using their photos as reference for accurate appearance." ∧
    requirement_text parent_default ["Amy", "Bo", "Cy"] ≠
      "Include Amy, Bo, and Cy, using their photos as reference for accurate appearance." ∧
    requirement_text parent_default ["Amy", "Cy", "Bo"] ≠
      "Include Amy, Bo, and Cy, using their photos as reference for accurate appearance." ∧
    requirement_text parent_default ["Bo", "Amy", "Cy"] ≠
      "Include Amy, Bo, and Cy, using their photos as reference for accurate appearance." ∧
    requirement_text parent_default ["Bo", "Cy", "Amy"] ≠
      "Include Amy, Bo, and Cy, using their photos as reference for accurate appearance." ∧
    requirement_text parent_default ["Cy", "Amy", "Bo"] ≠
      "Include Amy, Bo, and Cy, using their photos as reference for accurate appearance." ∧
    requirement_text parent_default ["Cy", "Bo", "Amy"] ≠
      "Include Amy, Bo, and Cy, using their photos as reference for accurate appearance." := by
  decide

/-- C6 (amended): the empty presence set keeps the default text; one match
gives the exact claimed sentence; two and three matches give
`"Include <names>, using their photos as reference for accurate appearance."`
with the names in the (unspecified) enumeration order of the Python set,
joined by `", "` except for `" and "` before the final name, with no comma
before the `"and"`. -/
theorem requirement_text_amended :
    requirement_text parent_default [] = parent_default ∧
    requirement_text parent_default ["Amy"] =
      "Include Amy and use their photo as reference for accurate appearance." ∧
    requirement_text parent_default ["Amy", "Bo"] =
      "Include Amy and Bo, using their photos as reference for accurate appearance." ∧
    requirement_text parent_default ["Bo", "Amy"] =
      "Include Bo and Amy, using their photos as reference for accurate appearance." ∧
    requirement_text parent_default ["Amy", "Bo", "Cy"] =
      "Include Amy, Bo and Cy, using their photos as reference for accurate appearance." ∧
    (∀ ord : List String, ord.Perm ["Amy", "Bo", "Cy"] →
      requirement_text parent_default ord =
        "Include " ++ String.intercalate ", " ord.dropLast ++ " and " ++ ord.getLastD ""
          ++ ", using their photos as reference for accurate appearance.") := by
  refine ⟨by decide, by decide, by decide, by decide, by decide, ?_⟩
  intro ord h
  rcases perm_three h with rfl | rfl | rfl | rfl | rfl | rfl <;> decide

/-- C6 witness: the amended statement applied to the concrete enumeration
order `["Cy","Amy","Bo"]` of the three-name set. -/
theorem requirement_text_amended_witness :
    (["Cy", "Amy", "Bo"] : List String).Perm ["Amy", "Bo", "Cy"] ∧
    requirement_text parent_default ["Cy", "Amy", "Bo"] =
      "Include Cy, Amy and Bo, using their photos as reference for accurate appearance." :=
  ⟨by decide,
    (requirement_text_amended.2.2.2.2.2 ["Cy", "Amy", "Bo"] (by decide)).trans (by decide)⟩

/-- C7: the reference list is baby photo first, then the photos kept by
zipping the parent-name list against the parent-photo list — but the photo
list omits persons without a photo, so the zip misaligns names and photos:
with parent1 Amy (no photo) and parent2 Bo (photo `"boPhoto"`), a stanza
mentioning only Amy yields references `["babyP", "boPhoto"]`: Bo's photo is
attributed to Amy although Bo is not in the presence set, contradicting the
code's own comment "Filter photos to only include those of characters in the
stanza" (src/main.py:214). -/
theorem reference_images_wrong_owner :
    collect_names [⟨"Amy", ""⟩, ⟨"Bo", "boPhoto"⟩] = ["Amy", "Bo"] ∧
    collect_photos [⟨"Amy", ""⟩, ⟨"Bo", "boPhoto"⟩] = ["boPhoto"] ∧
    get_names_in_stanza "Amy smiled" ["Amy", "Bo"] = ["Amy"] ∧
    reference_images "babyP" "Amy smiled" [⟨"Amy", ""⟩, ⟨"Bo", "boPhoto"⟩] []
      = ["babyP", "boPhoto"] := by
  decide

/-! Lemmas about the result-processing loop and the run. -/

theorem process_tasks_length (env : Env) :
    ∀ tasks : List (Nat × String),
      (process_tasks env tasks).1.length + (process_tasks env tasks).2.1.length
        = tasks.length := by
  intro tasks
  induction tasks with
  | nil => rfl
  | cons t rest ih =>
    obtain ⟨n, s⟩ := t
    simp only [process_tasks]
    cases htask : env.task n with
    | ok img =>
      by_cases himg : img = ""
      · simp only [himg, ne_eq, not_true_eq_false, if_false, List.length_append,
          List.length_cons, List.length_nil]
        omega
      · cases hadd : env.add_illustration n <;>
          simp only [ne_eq, himg, not_false_eq_true, if_true, List.length_append,
            List.length_cons, List.length_nil] <;> omega
    | timeout =>
      simp only [List.length_append, List.length_cons, List.length_nil]
      omega
    | err m =>
      simp only [List.length_append, List.length_cons, List.length_nil]
      omega

theorem process_tasks_events (env : Env) :
    ∀ tasks : List (Nat × String),
      (process_tasks env tasks).2.2
        = (process_tasks env tasks).1.map (fun p => Ev.addIllustration p.1 p.2) := by
  intro tasks
  induction tasks with
  | nil => rfl
  | cons t rest ih =>
    obtain ⟨n, s⟩ := t
    simp only [process_tasks]
    cases htask : env.task n with
    | ok img =>
      by_cases himg : img = ""
      · simpa [himg] using ih
      · cases hadd : env.add_illustration n <;> simpa [himg] using ih
    | timeout => simpa using ih
    | err m => simpa using ih

theorem process_tasks_filterMap (env : Env)
    (hadd : ∀ n, env.add_illustration n = none) :
    ∀ tasks : List (Nat × String),
      (process_tasks env tasks).1 = tasks.filterMap (fun t =>
        match env.task t.1 with
        | TaskOutcome.ok img => if img ≠ "" then some (t.1, img) else none
        | _ => none) := by
  intro tasks
  induction tasks with
  | nil => rfl
  | cons t rest ih =>
    obtain ⟨n, s⟩ := t
    simp only [process_tasks, List.filterMap_cons]
    cases htask : env.task n with
    | ok img =>
      by_cases himg : img = ""
      · simpa [himg] using ih
      · simpa [himg, hadd n] using ih
    | timeout => simpa using ih
    | err m => simpa using ih

theorem process_tasks_cons_add_fail (env : Env) (n : Nat) (s : String)
    (rest : List (Nat × String)) (img m : String)
    (htask : env.task n = TaskOutcome.ok img) (himg : img ≠ "")
    (hadd : env.add_illustration n = some m) :
    process_tasks env ((n, s) :: rest) =
      ((process_tasks env rest).1,
       ("Error generating illustration for stanza " ++ toString n ++ ": " ++ m)
         :: (process_tasks env rest).2.1,
       (process_tasks env rest).2.2) := by
  simp [process_tasks, htask, himg, hadd]

theorem cover_stage_of_error (env : Env) (m : String)
    (h : env.cover_gen = Except.error m) : cover_stage env = (none, []) := by
  simp [cover_stage, h]

theorem run_generate_success_eq (env : Env) (poem sid : String)
    (hc : env.create = Except.ok sid)
    (hne : (process_tasks env (stanza_tasks poem)).1 ≠ [])
    (hst : env.set_status "completed" = none) :
    run_generate env poem =
      ({ status := "success",
         message := final_message (process_tasks env (stanza_tasks poem)).1
           (process_tasks env (stanza_tasks poem)).2.1
           (split_poem_into_stanzas poem).length (cover_stage env).1,
         image_data := some (process_tasks env (stanza_tasks poem)).1,
         cover_image := (cover_stage env).1,
         error := none },
       Ev.createStorybook sid ::
         ((process_tasks env (stanza_tasks poem)).2.2 ++ (cover_stage env).2
           ++ [Ev.setStatus "completed" none])) := by
  obtain ⟨hd, tl, hcons⟩ := List.exists_cons_of_ne_nil hne
  simp [run_generate, hc, hst, hcons]

theorem run_generate_failed_eq (env : Env) (poem sid : String)
    (hc : env.create = Except.ok sid)
    (hemp : (process_tasks env (stanza_tasks poem)).1 = [])
    (hst : env.set_status "failed" = none) :
    run_generate env poem =
      (error_response "Failed to generate any illustrations",
       [Ev.createStorybook sid, Ev.setStatus "failed" none]) := by
  have hev := process_tasks_events env (stanza_tasks poem)
  rw [hemp] at hev
  simp [run_generate, hc, hst, hemp, hev]

theorem run_generate_create_error (env : Env) (poem e : String)
    (hc : env.create = Except.error e) :
    run_generate env poem = (error_response e, []) := by
  simp [run_generate, hc]

theorem run_generate_completed_raise (env : Env) (poem sid m : String)
    (hc : env.create = Except.ok sid)
    (hne : (process_tasks env (stanza_tasks poem)).1 ≠ [])
    (hst : env.set_status "completed" = some m) :
    (run_generate env poem).1 = error_response m := by
  obtain ⟨hd, tl, hcons⟩ := List.exists_cons_of_ne_nil hne
  simp [run_generate, hc, hst, hcons]

/-! Claim theorems about the Generation Scheduler. -/

/-- C1: in every run whose storybook creation succeeds, whose persistence
operations all succeed, and in which at least one stanza task yields an image,
the endpoint returns status `"success"`, an `image_data` mapping holding
exactly the successful stanza numbers with their images, the message built
from the success count out of N and the joined per-stanza failure
descriptions, and no error field. -/
theorem generate_illustration_success_aggregation :
    ∀ (env : Env) (poem sid : String),
      env.create = Except.ok sid →
      (∀ n, env.add_illustration n = none) →
      (∀ st, env.set_status st = none) →
      (process_tasks env (stanza_tasks poem)).1 ≠ [] →
      (run_generate env poem).1.status = "success" ∧
      (run_generate env poem).1.image_data =
        some ((stanza_tasks poem).filterMap (fun t =>
          match env.task t.1 with
          | TaskOutcome.ok img => if img ≠ "" then some (t.1, img) else none
          | _ => none)) ∧
      (run_generate env poem).1.message =
        final_message (process_tasks env (stanza_tasks poem)).1
          (process_tasks env (stanza_tasks poem)).2.1
          (split_poem_into_stanzas poem).length (cover_stage env).1 ∧
      (run_generate env poem).1.error = none := by
  intro env poem sid hc hadd hst hne
  rw [run_generate_success_eq env poem sid hc hne (hst "completed")]
  exact ⟨rfl, by rw [← process_tasks_filterMap env hadd], rfl, rfl⟩

/-- Environment of the concrete C1 scenario: three stanzas, stanza 2's task
times out, every persistence operation succeeds, the cover generation fails
(so the message carries no cover suffix). -/
def env_c1 : Env :=
  { create := Except.ok "sb1"
    task := fun n => if n = 1 then .ok "img1" else if n = 2 then .timeout else .ok "img3"
    add_illustration := fun _ => none
    set_status := fun _ => none
    cover_gen := Except.error "cover backend down"
    upload_cover := Except.ok "covUrl"
    attach_cover := none }

/-- C1 witness: three stanzas with stanza 2 timing out give illustrations for
stanzas 1 and 3, status `"success"` and a message enumerating 2 out of 3 with
the timeout entry for stanza 2. -/
theorem generate_illustration_success_aggregation_witness :
    (run_generate env_c1 "A\n\nB\n\nC").1.status = "success" ∧
    (run_generate env_c1 "A\n\nB\n\nC").1.image_data = some [(1, "img1"), (3, "img3")] ∧
    (run_generate env_c1 "A\n\nB\n\nC").1.message =
      "Generated 2 out of 3 illustrations. Errors: Timeout generating illustration for stanza 2" := by
  have h := generate_illustration_success_aggregation env_c1 "A\n\nB\n\nC" "sb1"
    rfl (fun _ => rfl) (fun _ => rfl) (by decide)
  exact ⟨h.1, h.2.1.trans (by decide), h.2.2.1.trans (by decide)⟩

/-- C2 (amended): in every run whose storybook creation succeeds and in which
zero stanza tasks succeed (a zero-stanza poem included), the storybook is
marked `failed` via the Recorder — but with no error message attached — zero
illustrations are persisted and no cover operation happens (the trace is
exactly creation followed by the failed marking), and the response has status
`"error"` with the generic text `"Failed to generate any illustrations"`;
the per-stanza error list is not reported anywhere. -/
theorem generate_zero_success_marks_failed :
    ∀ (env : Env) (poem sid : String),
      env.create = Except.ok sid →
      (process_tasks env (stanza_tasks poem)).1 = [] →
      env.set_status "failed" = none →
      (run_generate env poem).1.status = "error" ∧
      (run_generate env poem).1.error = some "Failed to generate any illustrations" ∧
      (run_generate env poem).1.image_data = none ∧
      (run_generate env poem).2 = [Ev.createStorybook sid, Ev.setStatus "failed" none] := by
  intro env poem sid hc hemp hst
  rw [run_generate_failed_eq env poem sid hc hemp hst]
  exact ⟨rfl, rfl, rfl, rfl⟩

/-- Environment of the concrete C2 scenario: every stanza task times out while
every external collaborator (including cover generation) would succeed. -/
def env_c2 : Env :=
  { create := Except.ok "sb1"
    task := fun _ => .timeout
    add_illustration := fun _ => none
    set_status := fun _ => none
    cover_gen := Except.ok "cov"
    upload_cover := Except.ok "covUrl"
    attach_cover := none }

/-- C2 witness: the amended statement applied to a one-stanza poem whose task
times out and to a poem that segments into zero stanzas. -/
theorem generate_zero_success_marks_failed_witness :
    ((run_generate env_c2 "A").1.status = "error" ∧
      (run_generate env_c2 "A").2
        = [Ev.createStorybook "sb1", Ev.setStatus "failed" none]) ∧
    ((run_generate env_c2 "\n\n").1.status = "error" ∧
      (run_generate env_c2 "\n\n").2
        = [Ev.createStorybook "sb1", Ev.setStatus "failed" none]) := by
  have h1 := generate_zero_success_marks_failed env_c2 "A" "sb1" rfl (by decide) rfl
  have h2 := generate_zero_success_marks_failed env_c2 "\n\n" "sb1" rfl (by decide) rfl
  exact ⟨⟨h1.1, h1.2.2.2⟩, ⟨h2.1, h2.2.2.2⟩⟩

/-- C2 counterexample: in the all-fail run the Recorder is told
`status = failed` with NO error message (the only status event carries
`none`), refuting the claim that the Storybook is marked failed "with an
aggregate error message"; the aggregated per-stanza errors are discarded. -/
theorem generate_zero_success_no_aggregate_message :
    (run_generate env_c2 "A").2 = [Ev.createStorybook "sb1", Ev.setStatus "failed" none] ∧
    ((run_generate env_c2 "A").2.all (fun e =>
      match e with
      | Ev.setStatus _ (some _) => false
      | _ => true)) = true ∧
    (run_generate env_c2 "A").1.status = "error" := by
  decide

/-- C3 (amended): in every run with at least one successful stanza whose
`completed` status update succeeds, a failure of the cover-generation stage
never changes the run's classification: the storybook is still marked
`completed`, the response status remains `"success"`, and the message is built
from the per-stanza results alone — the cover failure is only logged, it is
NOT appended to the error list. -/
theorem cover_failure_keeps_success :
    ∀ (env : Env) (poem sid m : String),
      env.create = Except.ok sid →
      (process_tasks env (stanza_tasks poem)).1 ≠ [] →
      env.cover_gen = Except.error m →
      env.set_status "completed" = none →
      (run_generate env poem).1.status = "success" ∧
      (run_generate env poem).1.cover_image = none ∧
      (run_generate env poem).1.message =
        final_message (process_tasks env (stanza_tasks poem)).1
          (process_tasks env (stanza_tasks poem)).2.1
          (split_poem_into_stanzas poem).length none ∧
      (run_generate env poem).2 =
        Ev.createStorybook sid ::
          ((process_tasks env (stanza_tasks poem)).2.2 ++ [Ev.setStatus "completed" none]) := by
  intro env poem sid m hc hne hcov hst
  rw [run_generate_success_eq env poem sid hc hne hst, cover_stage_of_error env m hcov]
  exact ⟨rfl, rfl, rfl, by simp⟩

/-- Environment of the concrete C3 scenario: one stanza succeeds, the cover
generation raises `"boom"`, every persistence operation succeeds. -/
def env_c3 : Env :=
  { create := Except.ok "sb3"
    task := fun _ => .ok "img"
    add_illustration := fun _ => none
    set_status := fun _ => none
    cover_gen := Except.error "boom"
    upload_cover := Except.ok "u"
    attach_cover := none }

/-- C3 witness: the amended statement applied to the one-stanza run with a
failing cover. -/
theorem cover_failure_keeps_success_witness :
    (run_generate env_c3 "A").1.status = "success" ∧
    (run_generate env_c3 "A").1.cover_image = none ∧
    (run_generate env_c3 "A").2 =
      [Ev.createStorybook "sb3", Ev.addIllustration 1 "img", Ev.setStatus "completed" none] := by
  have h := cover_failure_keeps_success env_c3 "A" "sb3" "boom" rfl (by decide) rfl rfl
  exact ⟨h.1, h.2.1, h.2.2.2.trans (by decide)⟩

/-- C3 counterexample: the cover stage fails (`cover_gen` raises `"boom"`),
yet the final error list is empty and the final message reports no errors at
all — refuting the claim that "the cover failure is logged into the error
list"; the classification part of the claim does hold (status stays
`"success"`). -/
theorem cover_failure_not_in_error_list :
    env_c3.cover_gen = Except.error "boom" ∧
    (process_tasks env_c3 (stanza_tasks "A")).2.1 = [] ∧
    (run_generate env_c3 "A").1 =
      { status := "success", message := "Successfully generated all 1 illustrations",
        image_data := some [(1, "img")], cover_image := none, error := none } := by
  decide

/-- C5 (amended): (1) the processing loop never aborts — every task
contributes exactly one entry to `image_data` or to the error list, whatever
the outcomes, so a per-stanza `add_illustration` (append) failure does NOT
abort the remaining run; (2) such an append failure is folded into the error
list exactly like a task-local failure, and processing of the remaining
stanzas continues unchanged; (3) a Recorder failure outside the loop —
storybook creation or the final status update — is not swallowed: it aborts
the run with an error response. -/
theorem persistence_failure_propagation :
    (∀ (env : Env) (tasks : List (Nat × String)),
      (process_tasks env tasks).1.length + (process_tasks env tasks).2.1.length
        = tasks.length) ∧
    (∀ (env : Env) (n : Nat) (s : String) (rest : List (Nat × String)) (img m : String),
      env.task n = TaskOutcome.ok img → img ≠ "" → env.add_illustration n = some m →
      process_tasks env ((n, s) :: rest) =
        ((process_tasks env rest).1,
         ("Error generating illustration for stanza " ++ toString n ++ ": " ++ m)
           :: (process_tasks env rest).2.1,
         (process_tasks env rest).2.2)) ∧
    (∀ (env : Env) (poem e : String),
      env.create = Except.error e → run_generate env poem = (error_response e, [])) ∧
    (∀ (env : Env) (poem sid m : String),
      env.create = Except.ok sid →
      (process_tasks env (stanza_tasks poem)).1 ≠ [] →
      env.set_status "completed" = some m →
      (run_generate env poem).1 = error_response m) :=
  ⟨process_tasks_length, process_tasks_cons_add_fail,
    run_generate_create_error, run_generate_completed_raise⟩

/-- Environment of the concrete C5 scenario: two stanzas, both tasks succeed,
but persisting stanza 1's illustration raises `"db down"`. -/
def env_c5 : Env :=
  { create := Except.ok "sb2"
    task := fun n => if n = 1 then .ok "i1" else .ok "i2"
    add_illustration := fun n => if n = 1 then some "db down" else none
    set_status := fun _ => none
    cover_gen := Except.error "nope"
    upload_cover := Except.ok "u"
    attach_cover := none }

/-- Environment whose final `completed` status update raises. -/
def env_c5b : Env :=
  { create := Except.ok "sb3"
    task := fun _ => .ok "img"
    add_illustration := fun _ => none
    set_status := fun st => if st = "completed" then some "fs write denied" else none
    cover_gen := Except.error "boom"
    upload_cover := Except.ok "u"
    attach_cover := none }

/-- Environment whose storybook creation raises. -/
def env_c5c : Env :=
  { create := Except.error "db unreachable"
    task := fun _ => .ok "img"
    add_illustration := fun _ => none
    set_status := fun _ => none
    cover_gen := Except.ok "cov"
    upload_cover := Except.ok "u"
    attach_cover := none }

/-- C5 witness: the amended statement applied to concrete runs — the loop
tally, the swallowed append failure of stanza 1, the aborting creation
failure, and the aborting `completed`-update failure. -/
theorem persistence_failure_propagation_witness :
    ((process_tasks env_c5 (stanza_tasks "A\n\nB")).1.length
      + (process_tasks env_c5 (stanza_tasks "A\n\nB")).2.1.length = 2) ∧
    process_tasks env_c5 [(1, "A"), (2, "B")] =
      ([(2, "i2")], ["Error generating illustration for stanza 1: db down"],
        [Ev.addIllustration 2 "i2"]) ∧
    run_generate env_c5c "A" = (error_response "db unreachable", []) ∧
    (run_generate env_c5b "A").1 = error_response "fs write denied" := by
  refine ⟨?_, ?_, ?_, ?_⟩
  · exact (persistence_failure_propagation.1 env_c5 (stanza_tasks "A\n\nB")).trans (by decide)
  · exact (persistence_failure_propagation.2.1 env_c5 1 "A" [(2, "B")] "i1" "db down"
      rfl (by decide) rfl).trans (by decide)
  · exact persistence_failure_propagation.2.2.1 env_c5c "A" "db unreachable" rfl
  · exact persistence_failure_propagation.2.2.2 env_c5b "A" "sb3" "fs write denied"
      rfl (by decide) rfl

/-- C5 counterexample: stanza 1's `add_illustration` (Recorder append) raises
`"db down"`, yet the failure is swallowed into the error list, stanza 2 is
still processed and persisted, the storybook is marked completed and the
response has status `"success"` — refuting the claim that every Recorder
failure, including a per-stanza append failure, aborts the remaining run. -/
theorem append_failure_does_not_abort :
    env_c5.add_illustration 1 = some "db down" ∧
    (run_generate env_c5 "A\n\nB").1 =
      { status := "success",
        message := "Generated 1 out of 2 illustrations. Errors: Error generating illustration for stanza 1: db down",
        image_data := some [(2, "i2")], cover_image := none, error := none } ∧
    (run_generate env_c5 "A\n\nB").2 =
      [Ev.createStorybook "sb2", Ev.addIllustration 2 "i2", Ev.setStatus "completed" none] := by
  decide

/-! Lemmas about the timed model of the await loop. -/

theorem schedule_go_length (t : Nat) (cs : List Nat) :
    (schedule_go t cs).length = cs.length := by
  induction cs generalizing t with
  | nil => rfl
  | cons c rest ih =>
    by_cases h : c ≤ t + 300 <;> simp [schedule_go, h, ih]

theorem schedule_go_head_start (t : Nat) (cs : List Nat) :
    ∀ x, (schedule_go t cs).head? = some x → x.start = t := by
  cases cs with
  | nil => intro x hx; simp [schedule_go] at hx
  | cons c rest =>
    intro x hx
    by_cases h : c ≤ t + 300 <;> simp [schedule_go, h] at hx <;> rw [← hx]

theorem schedule_go_chain (t : Nat) (cs : List Nat) :
    List.Chain' (fun a b => b.start = a.finish) (schedule_go t cs) := by
  induction cs generalizing t with
  | nil => simp [schedule_go]
  | cons c rest ih =>
    by_cases h : c ≤ t + 300 <;>
      simp only [schedule_go, h, if_true, if_false, reduceIte] <;>
      refine List.chain'_cons'.mpr ⟨?_, ih _⟩ <;>
      intro y hy <;> exact schedule_go_head_start _ rest y hy

theorem schedule_go_finish_bound (t : Nat) (cs : List Nat) :
    ∀ x ∈ schedule_go t cs, x.finish ≤ x.start + 300 := by
  induction cs generalizing t with
  | nil => intro x hx; simp [schedule_go] at hx
  | cons c rest ih =>
    intro x hx
    by_cases h : c ≤ t + 300 <;> simp only [schedule_go, h, if_true, if_false,
      reduceIte, List.mem_cons] at hx <;> rcases hx with rfl | hx
    · simp only
      exact Nat.max_le.mpr ⟨Nat.le_add_right t 300, h⟩
    · exact ih _ x hx
    · simp
    · exact ih _ x hx

theorem schedule_go_zip (t : Nat) (cs : List Nat) :
    ∀ p ∈ (schedule_go t cs).zip cs, (p.1.timedOut = true ↔ p.1.start + 300 < p.2) := by
  induction cs generalizing t with
  | nil => intro p hp; simp [schedule_go] at hp
  | cons c rest ih =>
    intro p hp
    by_cases h : c ≤ t + 300
    · simp only [schedule_go, if_pos h, List.zip_cons_cons, List.mem_cons] at hp
      rcases hp with rfl | hp
      · show ((false : Bool) = true ↔ t + 300 < c)
        exact iff_of_false (by simp) (by omega)
      · exact ih _ p hp
    · simp only [schedule_go, if_neg h, List.zip_cons_cons, List.mem_cons] at hp
      rcases hp with rfl | hp
      · show ((true : Bool) = true ↔ t + 300 < c)
        exact iff_of_true rfl (by omega)
      · exact ih _ p hp

/-- C4 (amended): all N tasks are launched (at instant 0, in stanza order)
before any is awaited, and the awaits happen strictly in stanza order — each
result's await begins exactly when the previous stanza's result is done (first
await at instant 0); every stanza's result is processed even when earlier
tasks time out or fail (the schedule always has N entries); the scheduler
never blocks more than 300 seconds on one await; and a task times out exactly
when its completion instant exceeds BY 300 seconds the instant its own await
began — NOT 300 seconds from task start: a task that completes more than 300
seconds after launch is still successfully awaited whenever earlier stanzas
delayed its await enough. -/
theorem scheduler_order_and_timing :
    ∀ cs : List Nat,
      (schedule cs).length = cs.length ∧
      List.Chain' (fun a b => b.start = a.finish) (schedule cs) ∧
      (∀ x, (schedule cs).head? = some x → x.start = 0) ∧
      (∀ x, x ∈ schedule cs → x.finish ≤ x.start + 300) ∧
      (∀ p ∈ (schedule cs).zip cs, (p.1.timedOut = true ↔ p.1.start + 300 < p.2)) :=
  fun cs =>
    ⟨schedule_go_length 0 cs, schedule_go_chain 0 cs, schedule_go_head_start 0 cs,
      schedule_go_finish_bound 0 cs, schedule_go_zip 0 cs⟩

/-- C4 witness: the amended statement applied to completion instants
`[200, 450]`: both results are processed, and the second await (which begins
at instant 200) does not time out. -/
theorem scheduler_order_and_timing_witness :
    (schedule [200, 450]).length = 2 ∧
    (({ start := 200, timedOut := false, finish := 450 } : TimedResult).timedOut = true ↔
      ({ start := 200, timedOut := false, finish := 450 } : TimedResult).start + 300 < 450) := by
  have h := scheduler_order_and_timing [200, 450]
  exact ⟨h.1, h.2.2.2.2 ({ start := 200, timedOut := false, finish := 450 }, 450) (by decide)⟩

/-- C4 counterexample: with two stanzas whose tasks complete 200 and 450
seconds after the common launch instant, stanza 2's task completes 450 > 300
seconds after its task start, yet it is NOT timed out (its await begins at
instant 200 and waits only 250 seconds) — refuting the claim that each await
is "bounded by a fixed per-task timeout of 300 seconds from task start": the
300-second window is measured from the moment the scheduler begins awaiting
that task, not from task start. -/
theorem scheduler_timeout_not_from_task_start :
    schedule [200, 450] =
      [{ start := 0, timedOut := false, finish := 200 },
       { start := 200, timedOut := false, finish := 450 }] ∧
    450 > 300 := by
  decide

/-- C10: `FirebaseService.add_illustration` persists by a non-transactional
read-modify-write — `storybook_ref.get()` then `storybook_ref.update(...)`
overwriting the whole `illustrations` array — so while two appends run
back-to-back correctly (first conjunct: the current sequential Scheduler
loses nothing), the interleaving read₁·read₂·write₁·write₂ of two
concurrently-completing appends to the same storybook LOSES the first record
(second conjunct: only stanza 2's record survives): the operation is not
atomic, contradicting the claim that it is one transactional update under
which no concurrently-completing append can be lost. -/
theorem add_illustration_lost_update :
    final_store [1, 2]
      [RmwStep.read 0, RmwStep.write 0, RmwStep.read 1, RmwStep.write 1] [] = [1, 2] ∧
    final_store [1, 2]
      [RmwStep.read 0, RmwStep.read 1, RmwStep.write 0, RmwStep.write 1] [] = [2] := by
  decide

end Cutesom
